import Mathlib

/-!
Verification of the VC-bot dashboard's view-state and data-filtering model.

The repository is a React/TypeScript single-page dashboard. The logic
embedded here comes from:
- `src/components/DataTable.tsx`: the transaction catalog, the risk filter,
  row-expansion toggling, the mark-as-reviewed handler, and the KPI
  drill-down dialog;
- the floating station recommender (`SmartFuelRecommender`): the saved-offer
  toggle over station ids;
- `MainCharts`: the chart period selector and the fixed weekly series.
Each React `useState` hook becomes a field of an explicit state record and
each event handler becomes a pure step function.
-/

/-- Risk level of a transaction, the TypeScript literal union
`'Low' | 'Medium' | 'High'` from the `Transaction` interface in
`DataTable.tsx`. -/
inductive Risk where
  | low
  | medium
  | high
deriving DecidableEq

/-- The string carried by each `Risk` literal in the source; the filter
compares this string against the `riskFilter` state. -/
def Risk.toString : Risk → String
  | .low => "Low"
  | .medium => "Medium"
  | .high => "High"

/-- One entry of a transaction's detail timeline
(`{ time: string; event: string }`). -/
structure TimelineItem where
  time : String
  event : String
deriving DecidableEq

/-- The optional nested `details` record of a transaction. -/
structure TxDetails where
  vehicle : String
  route : String
  previousTransactions : Int
  timeline : List TimelineItem
deriving DecidableEq

/-- The `Transaction` interface of `DataTable.tsx`. Numeric fields typed
`number` in TypeScript are embedded as `ℚ` (they carry decimal sample
values) except `price`, whose sample values are integers. -/
structure Transaction where
  id : String
  time : String
  card : String
  driver : String
  station : String
  liters : ℚ
  price : Int
  deviation : ℚ
  risk : Risk
  reviewed : Bool
  details : Option TxDetails
deriving DecidableEq

/-- The hardcoded transaction catalog `mockTransactions` from
`DataTable.tsx`. -/
def mockTransactions : List Transaction :=
  [ { id := "1", time := "14:32", card := "****1234", driver := "Иванов И.И.",
      station := "АЗС #42", liters := 45.2, price := 2850, deviation := 12.5,
      risk := .high, reviewed := false,
      details := some
        { vehicle := "ГАЗ-3302 (А123БВ)", route := "Москва → Санкт-Петербург",
          previousTransactions := 12,
          timeline :=
            [ { time := "14:30", event := "Transaction initiated" },
              { time := "14:31", event := "Payment processed" },
              { time := "14:32", event := "Fuel dispensed" },
              { time := "14:33", event := "Anomaly detected" } ] } },
    { id := "2", time := "13:15", card := "****5678", driver := "Петров П.П.",
      station := "АЗС #18", liters := 38.7, price := 2450, deviation := -2.1,
      risk := .low, reviewed := true, details := none },
    { id := "3", time := "12:45", card := "****9012", driver := "Сидоров С.С.",
      station := "АЗС #7", liters := 52.3, price := 3100, deviation := 18.3,
      risk := .high, reviewed := false,
      details := some
        { vehicle := "КАМАЗ-65117 (В456ГД)", route := "Казань → Уфа",
          previousTransactions := 8,
          timeline :=
            [ { time := "12:43", event := "Transaction initiated" },
              { time := "12:44", event := "Payment processed" },
              { time := "12:45", event := "Fuel dispensed" },
              { time := "12:46", event := "Anomaly detected" } ] } } ]

/-- The filter callback of `filteredTransactions` in `DataTable.tsx`:
`if (riskFilter !== 'All' && t.risk !== riskFilter) return false; return true`. -/
def keepTransaction (riskFilter : String) (t : Transaction) : Bool :=
  if riskFilter != "All" && Risk.toString t.risk != riskFilter then false
  else true

/-- `filteredTransactions` from `DataTable.tsx`, generalized over the input
list (the source applies it to `mockTransactions`):
`mockTransactions.filter((t) => ...)`. -/
def filteredTransactions (ts : List Transaction) (riskFilter : String) :
    List Transaction :=
  ts.filter (keepTransaction riskFilter)

/-- The option labels of the risk-filter `<select>` in `DataTable.tsx`
(lines 139-148). -/
def riskFilterOptions : List String :=
  ["All Risk Levels", "Low", "Medium", "High"]

/-- `toggleRow` from `DataTable.tsx`: copy the `expandedRows` set, delete
the id if present, otherwise add it. The JavaScript `Set` is used only
through membership tests, so it is embedded as a `Finset`. -/
def toggleRow (id : String) (expandedRows : Finset String) : Finset String :=
  if id ∈ expandedRows then expandedRows.erase id
  else insert id expandedRows

/-- `toggleSave` from `SmartFuelRecommender`: the same symmetric toggle on
the `savedOffers : Set<number>` of station ids. -/
def toggleSave (id : Int) (savedOffers : Finset Int) : Finset Int :=
  if id ∈ savedOffers then savedOffers.erase id
  else insert id savedOffers

/-- The message `markAsReviewed` in `DataTable.tsx` emits (both to
`console.log` and `alert`): the simulated audit-log entry. -/
def auditMessage (id : String) : String :=
  "Transaction " ++ id ++ " marked as reviewed. Audit log entry created."

/-- A session: the in-memory transaction catalog plus the ordered audit-log
channel fed by `markAsReviewed`. -/
structure Session where
  transactions : List Transaction
  audit : List String

/-- The session at startup: the hardcoded catalog, empty audit log. -/
def initialSession : Session :=
  { transactions := mockTransactions, audit := [] }

/-- `markAsReviewed` from `DataTable.tsx`: it appends the simulated
audit-log entry (the `console.log` and `alert` calls) and touches no other
state — in particular the function body contains no state update for the
transactions, so the catalog is returned unchanged. -/
def markAsReviewed (id : String) (sess : Session) : Session :=
  { sess with audit := sess.audit ++ [auditMessage id] }

/-- Chart period of `MainCharts`, the literal union `'Day' | 'Week' | 'Month'`. -/
inductive Period where
  | day
  | week
  | month
deriving DecidableEq

/-- One point of the fixed weekly series `chartData` in `MainCharts`. -/
structure SeriesPoint where
  date : String
  volume : Int
  revenue : Int
  margin : Int
deriving DecidableEq

/-- The hardcoded `chartData` array of `MainCharts`. -/
def chartData : List SeriesPoint :=
  [ { date := "Mon", volume := 1200, revenue := 2400, margin := 1800 },
    { date := "Tue", volume := 1900, revenue := 3800, margin := 2900 },
    { date := "Wed", volume := 1500, revenue := 3000, margin := 2200 },
    { date := "Thu", volume := 2100, revenue := 4200, margin := 3200 },
    { date := "Fri", volume := 1800, revenue := 3600, margin := 2700 },
    { date := "Sat", volume := 1600, revenue := 3200, margin := 2400 },
    { date := "Sun", volume := 1400, revenue := 2800, margin := 2100 } ]

/-- The combined interaction state of the dashboard: one field per
`useState` hook of `DataTable`, `SmartFuelRecommender`, `KPICards` and
`MainCharts`. -/
structure DashState where
  expandedRows : Finset String
  dateRange : String
  region : String
  riskFilter : String
  savedOffers : Finset Int
  selectedKPI : Option String
  period : Period

/-- The initial state: the `useState` initializers of the four components. -/
def initialState : DashState :=
  { expandedRows := ∅, dateRange := "Today", region := "All",
    riskFilter := "All", savedOffers := ∅, selectedKPI := none,
    period := .week }

/-- A discrete user-input event, one per event handler in the source. -/
inductive Event where
  | toggleRowEv (id : String)
  | setDateRange (v : String)
  | setRegion (v : String)
  | setRiskFilter (v : String)
  | toggleSaveEv (id : Int)
  | selectKPI (id : String)
  | closeKPI
  | setPeriod (p : Period)

/-- The step function: each event handler's `setXxx` call as a pure state
update. `selectKPI` is `onClick={() => setSelectedKPI(kpi.id)}`; `closeKPI`
covers both the backdrop click and the Close button, which both run
`setSelectedKPI(null)`. -/
def step (s : DashState) : Event → DashState
  | .toggleRowEv id => { s with expandedRows := toggleRow id s.expandedRows }
  | .setDateRange v => { s with dateRange := v }
  | .setRegion v => { s with region := v }
  | .setRiskFilter v => { s with riskFilter := v }
  | .toggleSaveEv id => { s with savedOffers := toggleSave id s.savedOffers }
  | .selectKPI id => { s with selectedKPI := some id }
  | .closeKPI => { s with selectedKPI := none }
  | .setPeriod p => { s with period := p }

/-- The transaction rows actually rendered in a state: the body of
`DataTable` maps over `filteredTransactions`, which reads only the
`riskFilter` field of the state (and the fixed catalog). -/
def filteredOf (s : DashState) : List Transaction :=
  filteredTransactions mockTransactions s.riskFilter

/-- The data fed to the `LineChart` in `MainCharts`: the constant
`chartData`, regardless of the selected period. -/
def chartDataFor (_ : DashState) : List SeriesPoint :=
  chartData

/-- Whether an event is one of the two set toggles (row expansion or saved
station). -/
def isToggle : Event → Bool
  | .toggleRowEv _ => true
  | .toggleSaveEv _ => true
  | _ => false

/-- Whether an event can fire in a state: `toggleRow` is only ever invoked
from a rendered row, so its id is drawn from the filtered catalog; all
other handlers are reachable unconditionally. -/
def eventFires (s : DashState) : Event → Bool
  | .toggleRowEv id =>
      ((filteredOf s).map Transaction.id).contains id
  | _ => true

/-- The states the dashboard UI can reach from startup by firing events. -/
inductive Reachable : DashState → Prop where
  | init : Reachable initialState
  | next (s : DashState) (e : Event) :
      Reachable s → eventFires s e = true → Reachable (step s e)

/-- The ids present in the transaction catalog, as a finite set. -/
def mockTxIds : Finset String :=
  (mockTransactions.map Transaction.id).toFinset

/-! ## Helper lemmas -/

/-- With the sentinel `"All"` the filter callback keeps every transaction. -/
lemma keepTransaction_all (t : Transaction) : keepTransaction "All" t = true := by
  simp [keepTransaction]

/-- Away from the sentinel, the filter callback is exactly the risk-equality
test. -/
lemma keepTransaction_ne_all (R : String) (h : R ≠ "All") (t : Transaction) :
    keepTransaction R t = (Risk.toString t.risk == R) := by
  have hb : (R != "All") = true := by simpa [bne_iff_ne] using h
  cases hx : Risk.toString t.risk == R with
  | true =>
      have : (Risk.toString t.risk != R) = false := by simp [bne, hx]
      simp [keepTransaction, hb, this]
  | false =>
      have : (Risk.toString t.risk != R) = true := by simp [bne, hx]
      simp [keepTransaction, hb, this]

/-- No risk level prints as the option label `"All Risk Levels"`. -/
lemma keepTransaction_option_label (t : Transaction) :
    keepTransaction "All Risk Levels" t = false := by
  cases hr : t.risk <;> simp [keepTransaction, Risk.toString, hr]

/-- An id appearing in the image of a filtered list appears in the image of
the original list. -/
lemma mem_map_of_mem_map_filter {p : Transaction → Bool}
    {ts : List Transaction} {id : String}
    (h : id ∈ (ts.filter p).map Transaction.id) :
    id ∈ ts.map Transaction.id := by
  rcases List.mem_map.mp h with ⟨t, ht, rfl⟩
  exact List.mem_map.mpr ⟨t, List.mem_of_mem_filter ht, rfl⟩

/-! ## Claim theorems -/

/-- Claim C1: for every transaction list and every risk filter other than
the sentinel `"All"`, the filter returns exactly the subsequence of the
input whose elements have the given risk, in the original order. -/
theorem filteredTransactions_exact (ts : List Transaction) (R : String)
    (h : R ≠ "All") :
    filteredTransactions ts R = ts.filter (fun t => Risk.toString t.risk == R) ∧
    (filteredTransactions ts R).Sublist ts ∧
    (∀ t ∈ filteredTransactions ts R, Risk.toString t.risk = R) ∧
    (∀ t ∈ ts, Risk.toString t.risk = R → t ∈ filteredTransactions ts R) := by
  have heq : filteredTransactions ts R =
      ts.filter (fun t => Risk.toString t.risk == R) :=
    List.filter_congr (fun t _ => keepTransaction_ne_all R h t)
  refine ⟨heq, ?_, ?_, ?_⟩
  · exact List.filter_sublist ts
  · intro t ht
    rw [heq] at ht
    exact beq_iff_eq.mp (List.mem_filter.mp ht).2
  · intro t ht hr
    rw [heq]
    exact List.mem_filter.mpr ⟨ht, beq_iff_eq.mpr hr⟩

/-- Witness for C1: filtering the sample catalog by `"High"` is the
risk-equality subsequence, and it keeps exactly the transactions with ids
`"1"` and `"3"`. -/
theorem filteredTransactions_exact_witness :
    (filteredTransactions mockTransactions "High" =
      mockTransactions.filter (fun t => Risk.toString t.risk == "High")) ∧
    (filteredTransactions mockTransactions "High").map Transaction.id =
      ["1", "3"] :=
  ⟨(filteredTransactions_exact mockTransactions "High" (by decide)).1,
   by decide⟩

/-- Claim C2 counterexample: the id `"1"` is present in the catalog, yet
after `markAsReviewed "1"` its transaction still has `reviewed = false` —
the handler never sets the `reviewed` field. -/
theorem markAsReviewed_counterexample :
    ("1" ∈ mockTransactions.map Transaction.id) ∧
    ¬ (∀ t ∈ (markAsReviewed "1" initialSession).transactions,
        t.id = "1" → t.reviewed = true) := by
  constructor
  · decide
  · intro h
    have hmem : mockTransactions.head (by decide) ∈
        (markAsReviewed "1" initialSession).transactions :=
      List.head_mem (by decide)
    have := h _ hmem rfl
    simp [mockTransactions] at this

/-- Claim C2 (amended): `markAsReviewed` appends one audit-log entry and
changes no transaction state; in particular repeated calls leave the
catalog unchanged. -/
theorem markAsReviewed_audit_only (id : String) (sess : Session) :
    (markAsReviewed id sess).transactions = sess.transactions ∧
    (markAsReviewed id sess).audit = sess.audit ++ [auditMessage id] ∧
    (markAsReviewed id (markAsReviewed id sess)).transactions =
      sess.transactions :=
  ⟨rfl, rfl, rfl⟩

/-- Claim C3: the select offers the label `"All Risk Levels"` while the
sentinel recognized by the filter is `"All"` (only ever the initial state);
selecting `"All Risk Levels"` therefore filters for a risk string no
transaction has and yields the empty sequence, not the whole catalog. -/
theorem riskFilter_sentinel_mismatch :
    "All Risk Levels" ∈ riskFilterOptions ∧
    "All" ∉ riskFilterOptions ∧
    initialState.riskFilter = "All" ∧
    (∀ ts : List Transaction, filteredTransactions ts "All Risk Levels" = []) ∧
    mockTransactions ≠ [] := by
  refine ⟨by decide, by decide, rfl, ?_, by decide⟩
  intro ts
  exact List.filter_eq_nil_iff.mpr fun t _ => by
    simp [keepTransaction_option_label t]

/-- Claim C4 counterexample: toggling the id `"1"`, absent from the empty
set, does not leave the set unchanged — it inserts the id. -/
theorem toggle_missing_counterexample :
    ("1" : String) ∉ (∅ : Finset String) ∧
    toggleRow "1" (∅ : Finset String) ≠ (∅ : Finset String) := by
  refine ⟨Finset.not_mem_empty _, ?_⟩
  simp [toggleRow]

/-- Claim C4 (amended): toggling an id not present in the respective set is
total (it cannot fail) but inserts the id rather than leaving the set
unchanged. -/
theorem toggle_missing_inserts :
    (∀ (s : Finset String) (id : String), id ∉ s →
      toggleRow id s = insert id s) ∧
    (∀ (s : Finset Int) (id : Int), id ∉ s →
      toggleSave id s = insert id s) := by
  constructor
  · intro s id h; simp [toggleRow, h]
  · intro s id h; simp [toggleSave, h]

/-- Witness for the amended C4 at the empty set. -/
theorem toggle_missing_inserts_witness :
    toggleRow "1" (∅ : Finset String) = insert "1" (∅ : Finset String) ∧
    toggleSave 1 (∅ : Finset Int) = insert 1 (∅ : Finset Int) :=
  ⟨toggle_missing_inserts.1 ∅ "1" (Finset.not_mem_empty "1"),
   toggle_missing_inserts.2 ∅ 1 (Finset.not_mem_empty 1)⟩

/-- Claim C5: filtering with the sentinel `"All"` is the identity. -/
theorem filteredTransactions_all_identity (ts : List Transaction) :
    filteredTransactions ts "All" = ts :=
  List.filter_eq_self.mpr fun t _ => keepTransaction_all t

/-- Claim C6: both set toggles are their own inverse, and in particular
toggling station id `1` twice from the empty saved set leaves it empty. -/
theorem toggle_involutive :
    (∀ (s : Finset String) (id : String), toggleRow id (toggleRow id s) = s) ∧
    (∀ (s : Finset Int) (id : Int), toggleSave id (toggleSave id s) = s) ∧
    toggleSave 1 (toggleSave 1 (∅ : Finset Int)) = ∅ := by
  have hrow : ∀ (s : Finset String) (id : String),
      toggleRow id (toggleRow id s) = s := by
    intro s id
    by_cases h : id ∈ s
    · have h1 : toggleRow id s = s.erase id := by simp [toggleRow, h]
      rw [h1]
      have h2 : id ∉ s.erase id := Finset.not_mem_erase id s
      simp [toggleRow, h2, Finset.insert_erase h]
    · have h1 : toggleRow id s = insert id s := by simp [toggleRow, h]
      rw [h1]
      have h2 : id ∈ insert id s := Finset.mem_insert_self id s
      simp [toggleRow, h2, Finset.erase_insert h]
  have hsave : ∀ (s : Finset Int) (id : Int),
      toggleSave id (toggleSave id s) = s := by
    intro s id
    by_cases h : id ∈ s
    · have h1 : toggleSave id s = s.erase id := by simp [toggleSave, h]
      rw [h1]
      have h2 : id ∉ s.erase id := Finset.not_mem_erase id s
      simp [toggleSave, h2, Finset.insert_erase h]
    · have h1 : toggleSave id s = insert id s := by simp [toggleSave, h]
      rw [h1]
      have h2 : id ∈ insert id s := Finset.mem_insert_self id s
      simp [toggleSave, h2, Finset.erase_insert h]
  exact ⟨hrow, hsave, hsave ∅ 1⟩

/-- Claim C7: in every reachable dashboard state the expanded-row set only
contains ids of the transaction catalog. -/
theorem expandedRows_subset_catalog (s : DashState) (h : Reachable s) :
    s.expandedRows ⊆ mockTxIds := by
  induction h with
  | init =>
      intro x hx
      simp [initialState] at hx
  | next s e hr hf ih =>
      cases e with
      | toggleRowEv id =>
          show toggleRow id s.expandedRows ⊆ mockTxIds
          by_cases hm : id ∈ s.expandedRows
          · rw [toggleRow, if_pos hm]
            exact (Finset.erase_subset id s.expandedRows).trans ih
          · rw [toggleRow, if_neg hm]
            refine Finset.insert_subset_iff.mpr ⟨?_, ih⟩
            have hmem : id ∈ (filteredOf s).map Transaction.id := by
              simpa [eventFires, List.contains, List.elem_iff] using hf
            exact List.mem_toFinset.mpr
              (mem_map_of_mem_map_filter hmem)
      | setDateRange v => exact ih
      | setRegion v => exact ih
      | setRiskFilter v => exact ih
      | toggleSaveEv id => exact ih
      | selectKPI id => exact ih
      | closeKPI => exact ih
      | setPeriod p => exact ih

/-- Witness for C7: the state reached by expanding the rendered row with id
`"1"` satisfies the invariant. -/
theorem expandedRows_subset_catalog_witness :
    (step initialState (Event.toggleRowEv "1")).expandedRows ⊆ mockTxIds :=
  expandedRows_subset_catalog _
    (Reachable.next initialState (Event.toggleRowEv "1") Reachable.init
      (by decide))

/-- Claim C8: the KPI drill-down dialog is the state machine
{Closed, Open(id)} with initial state Closed: a selection opens it, the
close action closes it, and opening for `"revenue"` then closing returns to
Closed across any intervening toggle events. -/
theorem kpi_dialog_machine :
    initialState.selectedKPI = none ∧
    (∀ (s : DashState) (id : String), s.selectedKPI = none →
      (step s (Event.selectKPI id)).selectedKPI = some id) ∧
    (∀ s : DashState, (step s Event.closeKPI).selectedKPI = none) ∧
    (∀ evs : List Event, evs.all isToggle = true →
      (step (evs.foldl step (step initialState (Event.selectKPI "revenue")))
        Event.closeKPI).selectedKPI = none) :=
  ⟨rfl, fun _ _ _ => rfl, fun _ => rfl, fun _ _ => rfl⟩

/-- Witness for C8: open the dialog for `"revenue"`, toggle a row and a
saved station, close — the dialog is Closed again. -/
theorem kpi_dialog_machine_witness :
    (step initialState (Event.selectKPI "revenue")).selectedKPI =
      some "revenue" ∧
    (step (List.foldl step (step initialState (Event.selectKPI "revenue"))
      [Event.toggleRowEv "1", Event.toggleSaveEv 2])
        Event.closeKPI).selectedKPI = none :=
  ⟨kpi_dialog_machine.2.1 initialState "revenue" rfl,
   kpi_dialog_machine.2.2.2 [Event.toggleRowEv "1", Event.toggleSaveEv 2] rfl⟩

/-- Claim C9: the rendered transaction sequence depends on the state only
through the risk filter — two states agreeing on `riskFilter` produce the
same output whatever their `dateRange` and `region`. -/
theorem filteredOf_ignores_dateRange_region (s1 s2 : DashState)
    (h : s1.riskFilter = s2.riskFilter) :
    filteredOf s1 = filteredOf s2 := by
  unfold filteredOf
  rw [h]

/-- Witness for C9: changing the date range and region of the initial state
leaves the rendered sequence unchanged. -/
theorem filteredOf_ignores_dateRange_region_witness :
    filteredOf
        { initialState with
            dateRange := "Last 7 days"
            region := "Moscow" } =
      filteredOf initialState :=
  filteredOf_ignores_dateRange_region _ _ rfl

/-- Claim C10: `setPeriod` is purely cosmetic: the period ranges over
exactly {Day, Week, Month}, the event changes only the period field, and
the data fed to the chart is the fixed weekly series either way. -/
theorem setPeriod_cosmetic (s : DashState) (p : Period) :
    (p = Period.day ∨ p = Period.week ∨ p = Period.month) ∧
    (step s (Event.setPeriod p)).period = p ∧
    (step s (Event.setPeriod p)).expandedRows = s.expandedRows ∧
    (step s (Event.setPeriod p)).dateRange = s.dateRange ∧
    (step s (Event.setPeriod p)).region = s.region ∧
    (step s (Event.setPeriod p)).riskFilter = s.riskFilter ∧
    (step s (Event.setPeriod p)).savedOffers = s.savedOffers ∧
    (step s (Event.setPeriod p)).selectedKPI = s.selectedKPI ∧
    chartDataFor (step s (Event.setPeriod p)) = chartDataFor s := by
  refine ⟨?_, rfl, rfl, rfl, rfl, rfl, rfl, rfl, rfl⟩
  cases p
  · exact Or.inl rfl
  · exact Or.inr (Or.inl rfl)
  · exact Or.inr (Or.inr rfl)
